import Mathlib

/-!
Verification of the simple-smtp-queue repository.

This file gives a shallow embedding, in Lean 4, of the parts of the
Python source that the specification claims talk about:

- app/models.py       : EmailMessageData, SendingResult, serialization
- app/smtp_proxy.py   : SMTPProxyHandler.handle_DATA and validation
- app/queue_manager.py: the Redis-backed queue operations and startup
- app/email_sender.py : EmailSender.send_email, RetryManager.send_with_retry,
                        EmailWorker.process of a single message
- app/rate_limiter.py : TokenBucketRateLimiter

Conventions of the embedding: Python float time values become rationals,
dictionaries become association lists in insertion order, a mutable object
update becomes a function returning the updated record, a coroutine that
sleeps is modelled by an explicit list of wall-clock instants (one per loop
iteration), and code that may raise becomes an Except or an explicit
outcome parameter.
-/

namespace SmtpQueue
/-- Embedding of models.py EmailMessageData: the nine persisted fields.
Python float timestamps are modelled as rationals, the headers dict as an
association list in insertion order. -/
structure EmailMessageData where
  id : String
  from_addr : String
  to_addrs : List String
  message_headers : List (String × String)
  message_body : String
  created_at : ℚ
  retry_count : Nat
  last_retry_at : ℚ
  status : String
deriving Repr, DecidableEq

/-- Embedding of models.py SendingResult. -/
structure SendingResult where
  success : Bool
  message_id : String
  error_message : String
  retry_count : Nat
deriving Repr, DecidableEq

/-- The queue JSON dictionary form of a message, as produced by to_dict.
Each key is optional because from_dict reads every key with dict.get and a
default, so a key may be absent. -/
structure QueueDict where
  id : Option String
  from_addr : Option String
  to_addrs : Option (List String)
  message_headers : Option (List (String × String))
  message_body : Option String
  created_at : Option ℚ
  retry_count : Option Nat
  last_retry_at : Option ℚ
  status : Option String
deriving Repr, DecidableEq

/-- Embedding of EmailMessageData.to_dict (models.py lines 87-99): every
one of the nine fields is written to the dictionary. -/
def EmailMessageData.to_dict (m : EmailMessageData) : QueueDict :=
  { id := some m.id
    from_addr := some m.from_addr
    to_addrs := some m.to_addrs
    message_headers := some m.message_headers
    message_body := some m.message_body
    created_at := some m.created_at
    retry_count := some m.retry_count
    last_retry_at := some m.last_retry_at
    status := some m.status }

/-- Embedding of EmailMessageData.from_dict (models.py lines 101-114).
The Python defaults str(uuid.uuid4()) and time.time() are nondeterministic,
so they are passed in as the parameters freshId and now. -/
def EmailMessageData.from_dict (freshId : String) (now : ℚ) (d : QueueDict) :
    EmailMessageData :=
  { id := d.id.getD freshId
    from_addr := d.from_addr.getD ""
    to_addrs := d.to_addrs.getD []
    message_headers := d.message_headers.getD []
    message_body := d.message_body.getD ""
    created_at := d.created_at.getD now
    retry_count := d.retry_count.getD 0
    last_retry_at := d.last_retry_at.getD 0
    status := d.status.getD "pending" }

/-- Embedding of EmailMessageData.can_retry (models.py lines 121-123). -/
def EmailMessageData.can_retry (m : EmailMessageData) (max_retries : Nat) : Bool :=
  m.retry_count < max_retries

/-- Embedding of EmailMessageData.get_retry_delay (models.py lines
125-127): exponential backoff base_delay * 2 ^ retry_count. -/
def EmailMessageData.get_retry_delay (m : EmailMessageData) (base_delay : Nat) : Nat :=
  base_delay * 2 ^ m.retry_count

/-- Embedding of EmailMessageData.increment_retry (models.py lines
116-119); time.time() is passed in as now. -/
def EmailMessageData.increment_retry (m : EmailMessageData) (now : ℚ) :
    EmailMessageData :=
  { m with retry_count := m.retry_count + 1, last_retry_at := now }

/-- The number of bytes of the UTF-8 encoding of a string; embedding of
the Python expression len(s.encode(utf8)). -/
def utf8Len (s : String) : Nat :=
  (s.data.map Char.utf8Size).sum

/-- The DATA content of an inbound SMTP transaction, structured as the
RFC 5322 header section plus the body, so that its wire byte size is
well defined. -/
structure WireContent where
  headers : List (String × String)
  body : String
deriving Repr, DecidableEq

/-- The wire byte size of a DATA content: every header line is rendered
as name, colon, space, value, CRLF, then the blank separator CRLF, then
the body bytes. -/
def WireContent.byteSize (c : WireContent) : Nat :=
  (c.headers.map (fun h => utf8Len h.1 + 2 + utf8Len h.2 + 2)).sum + 2 + utf8Len c.body

/-- The aiosmtpd envelope as consumed by handle_DATA: mail_from may be
absent, rcpt_tos is a list, content is the DATA payload. -/
structure Envelope where
  mail_from : Option String
  rcpt_tos : List String
  content : WireContent
deriving Repr, DecidableEq

/-- Embedding of EmailMessageData.from_smtp_message (models.py lines
26-60): from_addr is envelope.mail_from or empty, to_addrs is the
recipient list, the headers are taken from the parsed message, and the
body is the parsed payload (for a non-multipart message, the part after
the header separator). The generated uuid and time.time() are the
parameters freshId and now. -/
def from_smtp_message (freshId : String) (now : ℚ) (env : Envelope) :
    EmailMessageData :=
  { id := freshId
    from_addr := env.mail_from.getD ""
    to_addrs := env.rcpt_tos
    message_headers := env.content.headers
    message_body := env.content.body
    created_at := now
    retry_count := 0
    last_retry_at := 0
    status := "pending" }

/-- Embedding of SMTPProxyHandler validate_message (smtp_proxy.py lines
45-63): reject when from_addr is empty, when to_addrs is empty, or when
the UTF-8 byte size of message_body exceeds max_message_size. -/
def validate_message (max_message_size : Nat) (m : EmailMessageData) : Bool :=
  if m.from_addr = "" then false
  else if m.to_addrs = [] then false
  else if max_message_size < utf8Len m.message_body then false
  else true

/-- Embedding of SMTPProxyHandler.handle_DATA (smtp_proxy.py lines
21-43). The queue is the Redis ready list, newest at the head (LPUSH).
The boolean enqueue_ok is the value returned by queue_manager.enqueue
(false when the backend raised); the source discards that value and
replies 250 whenever validation passed. -/
def handle_DATA (freshId : String) (now : ℚ) (max_message_size : Nat)
    (enqueue_ok : Bool) (env : Envelope) (queue : List EmailMessageData) :
    String × List EmailMessageData :=
  let message := from_smtp_message freshId now env
  if ¬ validate_message max_message_size message then
    ("550 邮件数据无效", queue)
  else
    ("250 邮件已接收并加入队列", if enqueue_ok then message :: queue else queue)

/-- A concrete valid envelope used to exercise handle_DATA. -/
def c1Envelope : Envelope :=
  { mail_from := some "sender@example.com"
    rcpt_tos := ["rcpt@example.org"]
    content := { headers := [("Subject", "hi")], body := "hello" } }

/-- A 2048-byte DATA content whose body is only 500 bytes: one header
line of 8 + 2 + 1534 + 2 bytes, the blank separator, and a 500-byte
body; 1546 + 2 + 500 = 2048. -/
def c5Content : WireContent :=
  { headers := [("X-Filler", String.mk (List.replicate 1534 'a'))]
    body := String.mk (List.replicate 500 'b') }

/-- The envelope delivering c5Content with a valid sender and recipient. -/
def c5Envelope : Envelope :=
  { mail_from := some "sender@example.com"
    rcpt_tos := ["rcpt@example.org"]
    content := c5Content }

/-- The state of the Redis-backed queue: the ready list (smtp_queue) and
the in-flight list (smtp_processing), each with the newest element at the
head as LPUSH leaves it. -/
structure RQState where
  ready : List EmailMessageData
  inFlight : List EmailMessageData
deriving Repr, DecidableEq

/-- Embedding of the startup path create_queue_manager (queue_manager.py
lines 257-265) together with Application initialize components (main.py
lines 51-83) as a transformation of the queue state: the startup code
only constructs the manager and opens the connection; no statement reads
or writes the ready or in-flight lists, so the queue state is returned
unchanged. -/
def startup_queue (s : RQState) : RQState :=
  s

/-- Modelled from the spec: the recover operation that queue_manager.py
does not contain. On startup all entries of in_flight are returned to the
tail of ready with status pending, and in_flight is left empty. -/
def spec_recover (s : RQState) : RQState :=
  { ready := s.ready ++ s.inFlight.map (fun m => { m with status := "pending" })
    inFlight := [] }

/-- A message sitting in the in-flight list at process start. -/
def c2Message : EmailMessageData :=
  { id := "m-2"
    from_addr := "sender@example.com"
    to_addrs := ["rcpt@example.org"]
    message_headers := []
    message_body := "body"
    created_at := 0
    retry_count := 0
    last_retry_at := 0
    status := "sending" }

/-- One operation the forwarding worker issues against the queue backend
while settling a processed message. -/
inductive QueueOp where
  | enqueue (m : EmailMessageData)
  | settle (message_id : String) (status : String)
deriving Repr, DecidableEq

/-- Embedding of EmailWorker process_message (email_sender.py lines
161-191), recorded as the sequence of queue operations performed after
send_with_retry returned the given result: on success settle the entry
as sent; else, when the message still has retry budget, set its status
to pending, enqueue it again and settle the old entry as failed_retry;
else settle the entry as failed. -/
def process_message (max_retries : Nat) (m : EmailMessageData)
    (result : SendingResult) : List QueueOp :=
  if result.success then
    [QueueOp.settle m.id "sent"]
  else if m.can_retry max_retries then
    [QueueOp.enqueue { m with status := "pending" },
     QueueOp.settle m.id "failed_retry"]
  else
    [QueueOp.settle m.id "failed"]

/-- Embedding of RetryManager.send_with_retry (email_sender.py lines
103-123). The upstream send of attempt number i is abstracted by the
boolean outcome i (true when send_email reports success) with error text
err i; times i is the wall clock at attempt i, used by increment_retry;
slept accumulates the backoff delays actually slept; fuel bounds the
loop so the function is total, returning none when fuel runs out. -/
def send_with_retry (max_retries base_delay : Nat) (outcome : Nat → Bool)
    (err : Nat → String) (times : Nat → ℚ) :
    Nat → Nat → EmailMessageData → Nat →
      Option (SendingResult × EmailMessageData × Nat)
  | 0, _, _, _ => none
  | fuel + 1, i, m, slept =>
    let result : SendingResult :=
      { success := outcome i
        message_id := m.id
        error_message := if outcome i then "" else err i
        retry_count := m.retry_count }
    if result.success then
      some (result, m, slept)
    else if ¬ m.can_retry max_retries then
      some (result, m, slept)
    else
      send_with_retry max_retries base_delay outcome err times fuel (i + 1)
        (m.increment_retry (times i)) (slept + m.get_retry_delay base_delay)

/-- The message handed to the retry manager in the concrete retry
scenario. -/
def c4Message : EmailMessageData :=
  { id := "m-4"
    from_addr := "sender@example.com"
    to_addrs := ["rcpt@example.org"]
    message_headers := []
    message_body := "body"
    created_at := 0
    retry_count := 0
    last_retry_at := 0
    status := "pending" }

/-- Lowercasing of a string, the semantics of the Python lower method
for the ASCII header names involved. -/
def strLower (s : String) : String :=
  String.mk (s.data.map Char.toLower)

/-- Whether the first list is a prefix of the second. -/
def startsWithChars : List Char → List Char → Bool
  | [], _ => true
  | _ :: _, [] => false
  | p :: ps, c :: cs => (p == c) && startsWithChars ps cs

/-- Whether pat occurs as a contiguous substring, the semantics of the
Python in operator on strings. -/
def containsSub (pat : List Char) : List Char → Bool
  | [] => pat.isEmpty
  | c :: rest => startsWithChars pat (c :: rest) || containsSub pat rest

/-- Joining a list of strings with a separator, the semantics of the
Python join method. -/
def joinWith (sep : String) : List String → String
  | [] => ""
  | [x] => x
  | x :: rest => x ++ sep ++ joinWith sep rest

/-- Splitting of a string at line boundaries as the Python splitlines
method does, restricted to CR, LF and CRLF (the library also splits at
rarer boundary characters that no claim involves): terminators are
dropped, an empty final segment is not emitted. -/
def pySplitLinesAux : List Char → List Char → List (List Char)
  | [], acc => if acc.isEmpty then [] else [acc.reverse]
  | '\r' :: '\n' :: rest, acc => acc.reverse :: pySplitLinesAux rest []
  | '\r' :: rest, acc => acc.reverse :: pySplitLinesAux rest []
  | '\n' :: rest, acc => acc.reverse :: pySplitLinesAux rest []
  | c :: rest, acc => pySplitLinesAux rest (c :: acc)

/-- The lines of a string under the Python splitlines semantics. -/
def pySplitLines (s : String) : List String :=
  (pySplitLinesAux s.data []).map String.mk

/-- True when the string consists only of spaces and tabs (including the
empty string). -/
def wsOnly (s : String) : Bool :=
  s.data.all (fun c => c == ' ' || c == '\t')

/-- Model of the folding that email.header.Header.encode performs on a
short ASCII header value (the path Compat32 fold takes for every header
written by as_bytes): the value is split into lines and rejoined with
the line separator. Whitespace-only lines are dropped here; CPython
appends their whitespace to the previous line, which is equivalent for
everything proved below because the embedded-header search never depends
on trailing whitespace. Wrapping of overlong lines is not modelled; no
claim uses a value long enough to wrap. -/
def foldValue (v : String) : String :=
  joinWith "\n" ((pySplitLines v).filter (fun l => !wsOnly l))

/-- The continuation of the embedded-header regular expression of
email/header.py after a newline was consumed: one or more characters
that are neither space nor tab, followed by a colon. Equivalently, the
longest space-and-tab-free prefix contains a colon at position one or
later. -/
def embAfterNewline (l : List Char) : Bool :=
  ((l.takeWhile (fun c => !(c == ' ' || c == '\t'))).drop 1).contains ':'

/-- Search for the embedded-header pattern of email/header.py (a newline
followed by one or more non-space non-tab characters and a colon)
anywhere in the encoded value. -/
def embSearch : List Char → Bool
  | [] => false
  | c :: rest => (c == '\n' && embAfterNewline rest) || embSearch rest

/-- Model of writing one header through Compat32 fold (the path taken by
as_bytes in to_smtp_message): the value is folded, and when the folded
value still contains the embedded-header pattern the library raises
HeaderParseError instead of producing output. -/
def foldHeader (name value : String) : Except String String :=
  let folded := foldValue value
  if embSearch folded.data then Except.error "HeaderParseError"
  else Except.ok (name ++ ": " ++ folded ++ "\n")

/-- Exact-key lookup in the headers association list, the semantics of
the Python dict indexing used for the Content-Type test. -/
def lookupHeader (name : String) (hs : List (String × String)) : Option String :=
  (hs.find? (fun p => p.1 == name)).map (fun p => p.2)

/-- Case-insensitive membership test, the semantics of the in operator
of email.message.Message used for the From, To, Date and Message-ID
default tests. -/
def hasHeaderCI (name : String) (hs : List (String × String)) : Bool :=
  hs.any (fun p => strLower p.1 == strLower name)

/-- The headers a fresh MIMEText carries before to_smtp_message adds the
preserved ones. Their exact values are irrelevant to every claim; they
contain no newline. -/
def mimeTextHeaders : List (String × String) :=
  [("Content-Type", "text/plain; charset=utf-8"),
   ("MIME-Version", "1.0"),
   ("Content-Transfer-Encoding", "base64")]

/-- The headers a fresh MIMEMultipart carries. -/
def mimeMultipartHeaders : List (String × String) :=
  [("Content-Type", "multipart/mixed"), ("MIME-Version", "1.0")]

/-- The base message chosen by to_smtp_message (models.py lines 65-68):
MIMEMultipart when the Content-Type header exists and mentions
multipart, else MIMEText. -/
def baseHeaders (m : EmailMessageData) : List (String × String) :=
  match lookupHeader "Content-Type" m.message_headers with
  | some v =>
    if containsSub "multipart".data v.data then mimeMultipartHeaders
    else mimeTextHeaders
  | none => mimeTextHeaders

/-- The preserved headers of to_smtp_message (models.py lines 71-73):
every stored header whose lowercased name is neither content-type nor
content-transfer-encoding. -/
def keptHeaders (m : EmailMessageData) : List (String × String) :=
  m.message_headers.filter
    (fun p => !(strLower p.1 == "content-type"
                || strLower p.1 == "content-transfer-encoding"))

/-- The full header list that as_bytes will write for to_smtp_message
(models.py lines 62-85): the base message headers, the preserved stored
headers, then the injected defaults From, To, Date and Message-ID when
absent. The generated date and message id strings are the parameters
dateStr and msgIdStr. -/
def buildHeaders (m : EmailMessageData) (dateStr msgIdStr : String) :
    List (String × String) :=
  let withKept := baseHeaders m ++ keptHeaders m
  let h1 := if hasHeaderCI "From" withKept then withKept
            else withKept ++ [("From", m.from_addr)]
  let h2 := if hasHeaderCI "To" h1 then h1
            else h1 ++ [("To", joinWith ", " m.to_addrs)]
  let h3 := if hasHeaderCI "Date" h2 then h2 else h2 ++ [("Date", dateStr)]
  if hasHeaderCI "Message-ID" h3 then h3 else h3 ++ [("Message-ID", msgIdStr)]

/-- Folding of a whole header list in order; the first library error
aborts serialization, as the first raising header does in as_bytes. -/
def foldHeaders : List (String × String) → Except String String
  | [] => Except.ok ""
  | (n, v) :: rest =>
    match foldHeader n v with
    | Except.error e => Except.error e
    | Except.ok s =>
      match foldHeaders rest with
      | Except.error e => Except.error e
      | Except.ok t => Except.ok (s ++ t)

/-- True exactly on the error constructor of Except. -/
def exceptIsError {ε α : Type} : Except ε α → Bool
  | Except.error _ => true
  | Except.ok _ => false

/-- Embedding of EmailMessageData.to_smtp_message (models.py lines
62-85) composed with as_bytes: all headers are folded through the
Compat32 policy; on success the serialized form is the header block, a
blank line and the body (the content transfer encoding of the body is
elided, since no claim concerns body bytes). -/
def to_smtp_message (m : EmailMessageData) (dateStr msgIdStr : String) :
    Except String String :=
  match foldHeaders (buildHeaders m dateStr msgIdStr) with
  | Except.error e => Except.error e
  | Except.ok hs => Except.ok (hs ++ "\n" ++ m.message_body)

/-- A message whose stored header value contains a bare LF that does not
look like an embedded header. -/
def c8Message : EmailMessageData :=
  { id := "m-8"
    from_addr := "sender@example.com"
    to_addrs := ["rcpt@example.org"]
    message_headers := [("X-Test", "a\nb")]
    message_body := "body"
    created_at := 0
    retry_count := 0
    last_retry_at := 0
    status := "pending" }

/-- The same message but with a header value that injects an embedded
header line after the LF. -/
def c8InjMessage : EmailMessageData :=
  { c8Message with message_headers := [("X-Test", "a\nEvil: x")] }

/-- The outcome of the underlying aiosmtplib sendmail call: either an
exception propagates out of it, or it returns the per-recipient error
dictionary (empty on full acceptance). -/
inductive NetOutcome where
  | raises (e : String)
  | result (errors : List (String × String)) (response : String)
deriving Repr, DecidableEq

/-- Truthiness of the value the source binds to errors (email_sender.py
line 54): aiosmtplib SMTP.sendmail returns a pair of the per-recipient
error dictionary and the final server response string, and the source
binds that whole pair to errors. A two-element tuple is truthy in
Python regardless of its contents, so the test at line 60 holds for
every return value. -/
def sendmailReturnTruthy (_errors : List (String × String))
    (_response : String) : Bool :=
  true

/-- Embedding of EmailSender.send_email (email_sender.py lines 44-85).
Everything runs inside one try block: a connect failure (connectError),
a serialization failure from to_smtp_message, or a raising sendmail all
reach the except branch and yield a failure result. When sendmail
returns, the source tests the truthiness of the whole (errors, response)
pair it returned, which always holds, so the success branch at lines
69-75 is unreachable and every returning call is classified as failed.
Every branch copies the id and the retry count of the message into the
result. -/
def send_email (m : EmailMessageData) (connectError : Option String)
    (dateStr msgIdStr : String) (net : NetOutcome) : SendingResult :=
  match connectError with
  | some e => { success := false, message_id := m.id,
                error_message := "发送异常: " ++ e, retry_count := m.retry_count }
  | none =>
    match to_smtp_message m dateStr msgIdStr with
    | Except.error e =>
      { success := false, message_id := m.id,
        error_message := "发送异常: " ++ e, retry_count := m.retry_count }
    | Except.ok _ =>
      match net with
      | NetOutcome.raises e =>
        { success := false, message_id := m.id,
          error_message := "发送异常: " ++ e, retry_count := m.retry_count }
      | NetOutcome.result errors response =>
        if sendmailReturnTruthy errors response then
          { success := false, message_id := m.id,
            error_message := "发送失败，错误", retry_count := m.retry_count }
        else
          { success := true, message_id := m.id,
            error_message := "", retry_count := m.retry_count }

/-- The ids stored in a list of queued messages. -/
def idsOf (l : List EmailMessageData) : List String :=
  l.map (fun m => m.id)

/-- The message used to exercise the worker settle path. -/
def c6Message : EmailMessageData :=
  { id := "m-6"
    from_addr := "sender@example.com"
    to_addrs := ["rcpt@example.org"]
    message_headers := []
    message_body := "body"
    created_at := 0
    retry_count := 0
    last_retry_at := 0
    status := "pending" }

/-- The state after enqueueing c6Message and dequeueing it. -/
def c6State : RQState :=
  { ready := [], inFlight := [c6Message] }

/-- Embedding of RedisQueueManager.enqueue (queue_manager.py lines
55-64) on the queue state: LPUSH of the message onto the ready list. -/
def redis_enqueue (m : EmailMessageData) (s : RQState) : RQState :=
  { s with ready := m :: s.ready }

/-- Embedding of RedisQueueManager.dequeue (queue_manager.py lines
66-79): RPOPLPUSH atomically pops the oldest ready entry (the right end
of the list) and pushes it onto the in-flight list. -/
def redis_dequeue (s : RQState) : Option (EmailMessageData × RQState) :=
  match s.ready.reverse with
  | [] => none
  | m :: rest =>
    some (m, { ready := rest.reverse, inFlight := m :: s.inFlight })

/-- A worker settle call against the Redis backend: every mark_completed
call in EmailWorker process_message (email_sender.py lines 169, 176, 180
and 189) passes a terminal status argument, but
RedisQueueManager.mark_completed (queue_manager.py lines 81-92) accepts
only message_id, so the call raises TypeError at the call site before
any Redis command runs. The result is the untouched state paired with
the raised flag. -/
def redis_settle_attempt (s : RQState) : RQState × Bool :=
  (s, true)

/-- Embedding of EmailWorker process_message (email_sender.py lines
161-191) run against the Redis backend. Each settle call raises
TypeError (redis_settle_attempt), so the try block never removes the
in-flight entry; on the retry branch it has already enqueued a pending
copy first. The except handler at line 183 then sets the message
pending, enqueues it again — while the entry still sits in
smtp_processing — and its own second settle call raises and is swallowed
by the inner except at line 190. -/
def redis_process_message (max_retries : Nat) (m : EmailMessageData)
    (result : SendingResult) (s : RQState) : RQState :=
  let pendingCopy : EmailMessageData := { m with status := "pending" }
  let afterTry : RQState × Bool :=
    if result.success then
      redis_settle_attempt s
    else if m.can_retry max_retries then
      redis_settle_attempt (redis_enqueue pendingCopy s)
    else
      redis_settle_attempt s
  if afterTry.2 then
    (redis_settle_attempt (redis_enqueue pendingCopy afterTry.1)).1
  else
    afterTry.1

/-- The configuration fields of the token bucket limiter, read from
config.rate_limit. -/
structure RateCfg where
  max_tokens : ℚ
  tokens_per_second : ℚ
deriving Repr, DecidableEq

/-- The mutable state of TokenBucketRateLimiter (rate_limiter.py lines
25-28): the fractional token count and the time of the last refill. The
constructor starts with tokens = max_tokens and last_refill_time = now. -/
structure BucketState where
  tokens : ℚ
  last_refill_time : ℚ
deriving Repr, DecidableEq

/-- Embedding of TokenBucketRateLimiter refill_tokens (rate_limiter.py
lines 30-41): add elapsed time times the refill rate, clamping to
max_tokens, and advance last_refill_time, when the computed amount is
positive; otherwise leave the state unchanged. -/
def refill_tokens (cfg : RateCfg) (st : BucketState) (now : ℚ) : BucketState :=
  let tokens_to_add := (now - st.last_refill_time) * cfg.tokens_per_second
  if 0 < tokens_to_add then
    { tokens := min cfg.max_tokens (st.tokens + tokens_to_add)
      last_refill_time := now }
  else st

/-- Embedding of TokenBucketRateLimiter.acquire (rate_limiter.py lines
43-59). The loop is driven by the list of clock readings, one per
iteration (the sleep between two iterations is the passage from one
reading to the next); the returned list records the computed sleep
durations (1 - tokens) / tokens_per_second of the iterations that did
not grant. none means the clock reading list was exhausted before a
grant. -/
def acquire (cfg : RateCfg) :
    List ℚ → BucketState → Option (BucketState × List ℚ)
  | [], _ => none
  | now :: rest, st =>
    let st' := refill_tokens cfg st now
    if 1 ≤ st'.tokens then
      some ({ st' with tokens := st'.tokens - 1 }, [])
    else
      let wait_time := (1 - st'.tokens) / cfg.tokens_per_second
      match acquire cfg rest st' with
      | some (stF, waits) => some (stF, wait_time :: waits)
      | none => none

/-- C1: the claim says a failed enqueue must not be answered with 250.
The source discards the boolean returned by enqueue, so on a valid
message whose enqueue reported failure (enqueue_ok = false) the handler
still replies 250 while the queue is unchanged. This evaluates the code
at that failing input. -/
theorem handle_DATA_replies_250_despite_enqueue_failure :
    handle_DATA "id-1" 0 1024 false c1Envelope [] =
      ("250 邮件已接收并加入队列", []) := by
  decide

set_option maxRecDepth 100000 in
/-- C5 counterexample: the claim says a 2048-byte DATA payload under
max_message_size = 1024 is rejected with 550 and nothing is enqueued.
The source only measures the parsed message body, so this 2048-byte DATA
whose body is 500 bytes is accepted with 250 and a message is enqueued. -/
theorem oversized_DATA_accepted_when_body_small :
    c5Envelope.content.byteSize = 2048 ∧ 1024 < c5Envelope.content.byteSize ∧
    (handle_DATA "id-5" 0 1024 true c5Envelope []).1 = "250 邮件已接收并加入队列" ∧
    (handle_DATA "id-5" 0 1024 true c5Envelope []).2 ≠ [] := by
  refine ⟨by decide, by decide, by decide, by decide⟩

/-- C5 (amended): at DATA end the ingress replies 550 and leaves the
queue unchanged exactly when the envelope sender is empty, the recipient
list is empty, or the UTF-8 byte size of the parsed message body (not of
the whole DATA payload) exceeds max_message_size; when validation passes
the reply is 250 and the message is prepended to the queue when the
backend append succeeded. -/
theorem handle_DATA_validation_characterization
    (freshId : String) (now : ℚ) (maxSize : Nat) (enqueue_ok : Bool)
    (env : Envelope) (q : List EmailMessageData) :
    ((handle_DATA freshId now maxSize enqueue_ok env q).1 = "550 邮件数据无效"
      ↔ ((from_smtp_message freshId now env).from_addr = ""
          ∨ (from_smtp_message freshId now env).to_addrs = []
          ∨ maxSize < utf8Len (from_smtp_message freshId now env).message_body))
    ∧ (handle_DATA freshId now maxSize enqueue_ok env q).2 =
        (if (from_smtp_message freshId now env).from_addr = ""
            ∨ (from_smtp_message freshId now env).to_addrs = []
            ∨ maxSize < utf8Len (from_smtp_message freshId now env).message_body
         then q
         else if enqueue_ok then from_smtp_message freshId now env :: q else q) := by
  set m := from_smtp_message freshId now env with hm
  by_cases h1 : m.from_addr = "" <;>
    by_cases h2 : m.to_addrs = [] <;>
      by_cases h3 : maxSize < utf8Len m.message_body <;>
        simp [handle_DATA, validate_message, h1, h2, h3, ← hm]

/-- C2: the claim says recover() runs at startup and empties in_flight.
The source has no recover operation, so a state whose in-flight list
holds one entry passes through startup unchanged: in_flight is still
nonempty and the entry never returns to ready, unlike the recover
described by the spec. -/
theorem startup_performs_no_recovery :
    (startup_queue { ready := [], inFlight := [c2Message] }).inFlight = [c2Message]
    ∧ (startup_queue { ready := [], inFlight := [c2Message] }).ready = []
    ∧ (spec_recover { ready := [], inFlight := [c2Message] }).inFlight = []
    ∧ [c2Message] ≠ ([] : List EmailMessageData) := by
  refine ⟨rfl, rfl, rfl, by decide⟩

/-- C3: for every processed message the worker settles it as claimed:
sent on success; otherwise, when retry_count is below max_retries, the
message is set to pending, re-enqueued, and the old entry is settled as
failed_retry; otherwise the entry is settled as failed. -/
theorem process_message_settles_as_claimed
    (max_retries : Nat) (m : EmailMessageData) (result : SendingResult) :
    process_message max_retries m result =
      if result.success then
        [QueueOp.settle m.id "sent"]
      else if m.retry_count < max_retries then
        [QueueOp.enqueue { m with status := "pending" },
         QueueOp.settle m.id "failed_retry"]
      else
        [QueueOp.settle m.id "failed"] := by
  by_cases hs : result.success <;>
    by_cases hr : m.retry_count < max_retries <;>
      simp [process_message, EmailMessageData.can_retry, hs, hr]

/-- C4: the retry manager behaves as claimed. First conjunct: one loop
iteration returns the successful result at once; on failure it returns
the failing result immediately (no extra sleep) when retry_count + 1
exceeds max_retries, and otherwise sleeps base_delay times 2 to the
pre-increment retry_count, increments retry_count, stamps last_retry_at
with the current time and retries. Second conjunct: with max_retries 3
and base_delay 1, a message failing on attempts 0 and 1 and succeeding
on attempt 2 ends with retry_count 2 after a total backoff of 1 + 2 = 3
seconds. -/
theorem send_with_retry_backoff_as_claimed :
    (∀ (max_retries base_delay : Nat) (outcome : Nat → Bool)
        (err : Nat → String) (times : Nat → ℚ)
        (fuel i slept : Nat) (m : EmailMessageData),
      send_with_retry max_retries base_delay outcome err times
          (fuel + 1) i m slept =
        if outcome i then
          some ({ success := true, message_id := m.id, error_message := "",
                  retry_count := m.retry_count }, m, slept)
        else if max_retries ≤ m.retry_count then
          some ({ success := false, message_id := m.id, error_message := err i,
                  retry_count := m.retry_count }, m, slept)
        else
          send_with_retry max_retries base_delay outcome err times fuel (i + 1)
            { m with retry_count := m.retry_count + 1, last_retry_at := times i }
            (slept + base_delay * 2 ^ m.retry_count))
    ∧ send_with_retry 3 1 (fun i => decide (2 ≤ i)) (fun _ => "451 try later")
        (fun i => (i : ℚ)) 10 0 c4Message 0 =
      some ({ success := true, message_id := "m-4", error_message := "",
              retry_count := 2 },
        { c4Message with retry_count := 2, last_retry_at := 1 }, 3) := by
  constructor
  · intro max_retries base_delay outcome err times fuel i slept m
    by_cases ho : outcome i
    · simp [send_with_retry, ho]
    · by_cases hr : m.retry_count < max_retries
      · simp [send_with_retry, EmailMessageData.can_retry,
          EmailMessageData.increment_retry, EmailMessageData.get_retry_delay,
          ho, hr, Nat.not_le.mpr hr]
      · simp [send_with_retry, EmailMessageData.can_retry,
          ho, hr, Nat.not_lt.mp hr]
  · decide

/-- C8 counterexample: the claim says every header value containing a
bare CR or LF makes serialization fail rather than produce output. For
the value containing the bare LF sequence a, LF, b the library folds and
emits it unchanged, so to_smtp_message succeeds and its output still
contains that LF. -/
theorem bare_LF_header_value_serializes :
    exceptIsError (to_smtp_message c8Message "d" "i") = false ∧
    foldValue "a\nb" = "a\nb" := by
  refine ⟨by decide, by decide⟩

/-- C8 (amended): serialization fails, with the HeaderParseError of the
Python email library, exactly when some header of the final header block
has a folded value that still contains a newline followed by
non-whitespace characters and a colon (the embedded-header pattern); in
particular the injected header value a, LF, Evil-colon is rejected,
while other bare CR or LF values are emitted, folded, rather than
rejected. -/
theorem to_smtp_message_error_characterization :
    (∀ (m : EmailMessageData) (dateStr msgIdStr : String),
      exceptIsError (to_smtp_message m dateStr msgIdStr) =
        (buildHeaders m dateStr msgIdStr).any
          (fun p => embSearch (foldValue p.2).data))
    ∧ exceptIsError (to_smtp_message c8InjMessage "d" "i") = true := by
  constructor
  · intro m dateStr msgIdStr
    have key : ∀ hs : List (String × String),
        exceptIsError (foldHeaders hs) =
          hs.any (fun p => embSearch (foldValue p.2).data) := by
      intro hs
      induction hs with
      | nil => rfl
      | cons p rest ih =>
        obtain ⟨n, v⟩ := p
        by_cases hv : embSearch (foldValue v).data
        · simp [foldHeaders, foldHeader, hv, exceptIsError]
        · simp only [foldHeaders, foldHeader, hv, if_neg, Bool.false_eq_true,
            not_false_eq_true, List.any_cons]
          cases hfold : SmtpQueue.foldHeaders rest with
          | error e =>
            rw [hfold] at ih
            simp [exceptIsError, ← ih, hv]
          | ok t =>
            rw [hfold] at ih
            simp [exceptIsError, ← ih, hv]
    cases hall : foldHeaders (buildHeaders m dateStr msgIdStr) with
    | error e =>
      rw [← key, hall]
      simp [to_smtp_message, hall, exceptIsError]
    | ok hs =>
      rw [← key, hall]
      simp [to_smtp_message, hall, exceptIsError]
  · decide

/-- C10: send_email is total over every outcome of the connect, the
serialization and the sendmail call, and always returns a result
carrying the id and the retry count of the message; its success field is
false whenever the sendmail call raises or reports per-recipient errors
— indeed for every outcome, because the source tests the truthiness of
the whole (errors, response) pair sendmail returns, which never fails,
so no returning call is ever classified as a success. -/
theorem send_email_total_and_failure_reporting
    (m : EmailMessageData) (connectError : Option String)
    (dateStr msgIdStr : String) (net : NetOutcome) :
    (send_email m connectError dateStr msgIdStr net).message_id = m.id
    ∧ (send_email m connectError dateStr msgIdStr net).retry_count = m.retry_count
    ∧ (send_email m connectError dateStr msgIdStr net).success = false := by
  cases connectError with
  | some e => simp [send_email]
  | none =>
    cases hser : to_smtp_message m dateStr msgIdStr with
    | error e => simp [send_email, hser]
    | ok s =>
      cases net with
      | raises e => simp [send_email, hser]
      | result errors response =>
        simp [send_email, hser, sendmailReturnTruthy]

/-- C7: for every message, converting to the queue JSON dictionary form
and back yields a message equal to the original in all nine fields, for
any values of the nondeterministic from_dict defaults. -/
theorem from_dict_to_dict_roundtrip
    (m : EmailMessageData) (freshId : String) (now : ℚ) :
    EmailMessageData.from_dict freshId now m.to_dict = m := by
  cases m
  rfl

/-- C6: the claim says no reachable queue state holds one message id in
both the ready and the in-flight list. Against the Redis backend every
worker settle call passes a status argument to the one-argument
RedisQueueManager.mark_completed, raising TypeError and removing
nothing, and the except path then re-enqueues the id while its entry
still sits in smtp_processing. First conjunct: the state c6State arises
by enqueueing one message and dequeueing it. Remaining conjuncts:
processing it there — even with a successful send — leaves its id in
both lists, violating the claimed invariant. -/
theorem redis_settle_leaves_id_in_both_lists :
    redis_dequeue (redis_enqueue c6Message { ready := [], inFlight := [] })
      = some (c6Message, c6State)
    ∧ "m-6" ∈ idsOf (redis_process_message 3 c6Message
        { success := true, message_id := "m-6", error_message := "",
          retry_count := 0 } c6State).ready
    ∧ "m-6" ∈ idsOf (redis_process_message 3 c6Message
        { success := true, message_id := "m-6", error_message := "",
          retry_count := 0 } c6State).inFlight := by
  refine ⟨by decide, by decide, by decide⟩

theorem refill_tokens_bounds (cfg : RateCfg) (st : BucketState) (now : ℚ)
    (h0 : 0 ≤ st.tokens) (h1 : st.tokens ≤ cfg.max_tokens)
    (hcap : 0 ≤ cfg.max_tokens) :
    0 ≤ (refill_tokens cfg st now).tokens
      ∧ (refill_tokens cfg st now).tokens ≤ cfg.max_tokens := by
  unfold refill_tokens
  by_cases hadd : 0 < (now - st.last_refill_time) * cfg.tokens_per_second
  · simp only [hadd, if_pos]
    constructor
    · exact le_min hcap (by linarith)
    · exact min_le_left _ _
  · simp only [hadd, if_neg, not_false_eq_true]
    exact ⟨h0, h1⟩

/-- C9: the token bucket follows the claimed algorithm and keeps its
token count within the configured bounds. First conjunct: when the
refilled token count reaches one, acquire grants at once by spending
exactly one token. Second conjunct: otherwise it records a sleep of
(1 - tokens) / tokens_per_second and retries at the next clock reading.
Third conjunct: from any state with tokens in the interval from zero to
max_tokens (with a nonnegative capacity), every state acquire returns is
still in that interval. -/
theorem token_bucket_acquire_as_claimed :
    (∀ (cfg : RateCfg) (st : BucketState) (now : ℚ) (rest : List ℚ),
      1 ≤ (refill_tokens cfg st now).tokens →
      acquire cfg (now :: rest) st =
        some ({ refill_tokens cfg st now with
                  tokens := (refill_tokens cfg st now).tokens - 1 }, []))
    ∧ (∀ (cfg : RateCfg) (st : BucketState) (now : ℚ) (rest : List ℚ),
        ¬ 1 ≤ (refill_tokens cfg st now).tokens →
        acquire cfg (now :: rest) st =
          (acquire cfg rest (refill_tokens cfg st now)).map
            (fun p => (p.1,
              (1 - (refill_tokens cfg st now).tokens)
                / cfg.tokens_per_second :: p.2)))
    ∧ (∀ (cfg : RateCfg) (times : List ℚ) (st stF : BucketState)
          (waits : List ℚ),
        0 ≤ st.tokens → st.tokens ≤ cfg.max_tokens → 0 ≤ cfg.max_tokens →
        acquire cfg times st = some (stF, waits) →
        0 ≤ stF.tokens ∧ stF.tokens ≤ cfg.max_tokens) := by
  refine ⟨?_, ?_, ?_⟩
  · intro cfg st now rest hge
    simp [acquire, hge]
  · intro cfg st now rest hlt
    simp only [acquire, hlt, if_neg, not_false_eq_true]
    cases hrec : acquire cfg rest (refill_tokens cfg st now) with
    | none => simp
    | some p => simp
  · intro cfg times
    induction times with
    | nil => intro st stF waits _ _ _ hacq; simp [acquire] at hacq
    | cons now rest ih =>
      intro st stF waits h0 h1 hcap hacq
      have hb := refill_tokens_bounds cfg st now h0 h1 hcap
      simp only [acquire] at hacq
      by_cases hge : 1 ≤ (refill_tokens cfg st now).tokens
      · rw [if_pos hge] at hacq
        have hpair := Option.some.inj hacq
        have hfst := congrArg Prod.fst hpair
        simp only [] at hfst
        rw [← hfst]
        exact ⟨by simp only []; linarith [hb.1], by simp only []; linarith [hb.2]⟩
      · rw [if_neg hge] at hacq
        cases hrec : acquire cfg rest (refill_tokens cfg st now) with
        | none => rw [hrec] at hacq; exact absurd hacq (by simp)
        | some p =>
          rw [hrec] at hacq
          obtain ⟨pst, pwaits⟩ := p
          have hpair := Option.some.inj hacq
          have hfst := congrArg Prod.fst hpair
          simp only [] at hfst
          rw [← hfst]
          exact ih (refill_tokens cfg st now) pst pwaits hb.1 hb.2 hcap hrec

/-- Witness for C9: the three conjuncts of the theorem applied at a
concrete configuration (capacity 10, two tokens per second), concrete
states and concrete clock readings, every hypothesis discharged at the
concrete input. -/
theorem token_bucket_acquire_witness :
    acquire { max_tokens := 10, tokens_per_second := 2 } [1]
        { tokens := 5, last_refill_time := 0 } =
      some ({ tokens := 6, last_refill_time := 1 }, [])
    ∧ acquire { max_tokens := 10, tokens_per_second := 2 } [0, 1]
        { tokens := 0, last_refill_time := 0 } =
      some ({ tokens := 1, last_refill_time := 1 }, [1 / 2])
    ∧ (0 ≤ (6 : ℚ) ∧ (6 : ℚ) ≤ 10) := by
  refine ⟨?_, ?_, ?_⟩
  · rw [token_bucket_acquire_as_claimed.1
      { max_tokens := 10, tokens_per_second := 2 }
      { tokens := 5, last_refill_time := 0 } 1 []
      (by norm_num [refill_tokens, min_def])]
    norm_num [refill_tokens, min_def]
  · rw [token_bucket_acquire_as_claimed.2.1
      { max_tokens := 10, tokens_per_second := 2 }
      { tokens := 0, last_refill_time := 0 } 0 [1]
      (by norm_num [refill_tokens])]
    norm_num [acquire, refill_tokens, min_def]
  · exact token_bucket_acquire_as_claimed.2.2
      { max_tokens := 10, tokens_per_second := 2 } [1]
      { tokens := 5, last_refill_time := 0 }
      { tokens := 6, last_refill_time := 1 } [] (by norm_num) (by norm_num)
      (by norm_num) (by norm_num [acquire, refill_tokens, min_def])
end SmtpQueue
